import Mathlib

/-!
Verification of `deephumor/models/transformers.py`.

Tensors are shallowly embedded as curried functions over `Fin`-indexed
dimensions with rational entries (real-number semantics for torch floats).
Shapes live in the types.  The attention softmax uses `exp`, and the scale
parameters use `sqrt`; both are irrational on most inputs, so the embedding
is parametrised by functions `fexp fsqrt : ℚ → ℚ` standing for the exact
real operations.  All claims at issue are structural (shape bookkeeping,
index arithmetic, masking, error behaviour) and are independent of the
particular values of these two functions.
-/

/-- Tensor of shape `[a, b]` with entries in `α`. -/
abbrev Tensor2 (a b : ℕ) (α : Type) := Fin a → Fin b → α

/-- Tensor of shape `[a, b, c]` with entries in `α`. -/
abbrev Tensor3 (a b c : ℕ) (α : Type) := Fin a → Fin b → Fin c → α

/-- Tensor of shape `[a, b, c, d]` with entries in `α`. -/
abbrev Tensor4 (a b c d : ℕ) (α : Type) := Fin a → Fin b → Fin c → Fin d → α

/-- `nn.Dropout(0.)` applied in the claims' setting (dropout probability 0):
with `p = 0` no entry is zeroed and the 1/(1-p) rescale is 1, so the layer is
the identity map.  Every claim under verification fixes dropout to 0. -/
def dropout0 (x : ℚ) : ℚ := x

/-- Entry-wise equality test of a `[bs, k]` tensor against a scalar:
torch `key == pad_index` (line 23). -/
def eqScalarMask {bs k : ℕ} (key : Tensor2 bs k ℤ) (pad : ℤ) : Tensor2 bs k Bool :=
  fun b j => decide (key b j = pad)

/-- `unsqueeze(1)` on a `[bs, k]` tensor, giving `[bs, 1, k]` (line 23). -/
def unsqueeze1 {bs k : ℕ} {α : Type} (t : Tensor2 bs k α) : Tensor3 bs 1 k α :=
  fun b _ j => t b j

/-- `expand(bs, q, k)` of a `[bs, 1, k]` tensor along the singleton middle
dimension (line 24). -/
def expandMid {bs q k : ℕ} {α : Type} (t : Tensor3 bs 1 k α) : Tensor3 bs q k α :=
  fun b _ j => t b ⟨0, Nat.one_pos⟩ j

/-- `get_pad_mask` (lines 10-24): `(key == pad_index).unsqueeze(1)` expanded
to `[bs, query_len, key_len]`.  (`.to(query.device)` is a no-op here.) -/
def get_pad_mask {bs q k : ℕ} (_query : Tensor2 bs q ℤ) (key : Tensor2 bs k ℤ)
    (pad : ℤ) : Tensor3 bs q k Bool :=
  expandMid (unsqueeze1 (eqScalarMask key pad))

/-- `torch.ones([bs, n, m])` (line 37). -/
def ones3 (bs n m : ℕ) : Tensor3 bs n m ℚ := fun _ _ _ => 1

/-- `torch.triu(t, diagonal)` on a `[bs, n, n]` tensor: keeps entry `(b,i,j)`
when `j - i ≥ diagonal`, zeroes it otherwise (line 37). -/
def triu3 {bs n : ℕ} (t : Tensor3 bs n n ℚ) (diagonal : ℤ) : Tensor3 bs n n ℚ :=
  fun b i j => if diagonal ≤ (j : ℤ) - (i : ℤ) then t b i j else 0

/-- `get_autoregressive_mask` (lines 27-38):
`torch.triu(torch.ones([bs, seq_len, seq_len]), 1).bool()`; `.bool()` maps a
float entry to `true` iff it is nonzero. -/
def get_autoregressive_mask {bs n : ℕ} {κ : Type} (_seq : Tensor2 bs n κ) :
    Tensor3 bs n n Bool :=
  fun b i j => decide (triu3 (ones3 bs n n) 1 b i j ≠ 0)

/-- C2: `get_pad_mask(query, key, pad_index)` has shape
`[bs, query_len, key_len]` (by its type), its entry at `(b, i, j)` is true
iff `key[b, j] == pad_index`, and it is independent of the query row index
and of the values in the query tensor. -/
theorem get_pad_mask_correct (bs q k : ℕ) (query query2 : Tensor2 bs q ℤ)
    (key : Tensor2 bs k ℤ) (pad : ℤ) (b : Fin bs) (i i2 : Fin q) (j : Fin k) :
    (get_pad_mask query key pad b i j = true ↔ key b j = pad)
    ∧ get_pad_mask query key pad b i j = get_pad_mask query key pad b i2 j
    ∧ get_pad_mask query key pad = get_pad_mask query2 key pad := by
  refine ⟨?_, rfl, rfl⟩
  simp [get_pad_mask, expandMid, unsqueeze1, eqScalarMask]

/-- C3: `get_autoregressive_mask(seq)` has shape `[bs, seq_len, seq_len]`
(by its type), its entry at `(b, i, j)` is true iff `j > i` (strict upper
triangle), and it does not depend on the values in `seq`. -/
theorem get_autoregressive_mask_correct (bs n : ℕ) (seq seq2 : Tensor2 bs n ℤ)
    (b : Fin bs) (i j : Fin n) :
    (get_autoregressive_mask seq b i j = true ↔ (i : ℕ) < (j : ℕ))
    ∧ get_autoregressive_mask seq = get_autoregressive_mask seq2 := by
  refine ⟨?_, rfl⟩
  simp only [get_autoregressive_mask, triu3, ones3]
  by_cases h : (1 : ℤ) ≤ (j : ℤ) - (i : ℤ)
  · simp only [if_pos h]
    constructor
    · intro _; omega
    · intro _; decide
  · simp only [if_neg h]
    constructor
    · intro hc; simp at hc
    · intro hij; exact absurd (by omega : (1 : ℤ) ≤ (j : ℤ) - (i : ℤ)) h

/-- `nn.Linear(inF, outF)`: weight matrix of shape `[outF, inF]` and bias of
shape `[outF]`; computes `x Wᵀ + b` on the last dimension. -/
structure LinearLayer (inF outF : ℕ) where
  weight : Fin outF → Fin inF → ℚ
  bias : Fin outF → ℚ

/-- Application of a linear layer to a vector (the last tensor dimension). -/
def LinearLayer.app {i o : ℕ} (L : LinearLayer i o) (v : Fin i → ℚ) : Fin o → ℚ :=
  fun r => (∑ j, L.weight r j * v j) + L.bias r

/-- A linear layer applied position-wise to a `[bs, s, inF]` tensor. -/
def LinearLayer.map3 {bs s i o : ℕ} (L : LinearLayer i o) (t : Tensor3 bs s i ℚ) :
    Tensor3 bs s o ℚ :=
  fun b p => L.app (t b p)

/-- Flat index of coordinate `d` of head `h` in the `hid_dim = nH * hD`
dimension (row-major layout, as in `view(bs, seq_len, n_heads, head_dim)`). -/
def finMerge {nH hD : ℕ} (h : Fin nH) (d : Fin hD) : Fin (nH * hD) :=
  ⟨h.val * hD + d.val, by
    have hh := h.isLt
    have hd := d.isLt
    calc h.val * hD + d.val < (h.val + 1) * hD := by
          rw [Nat.add_mul, Nat.one_mul]; omega
    _ ≤ nH * hD := Nat.mul_le_mul_right hD hh⟩

/-- Head index of a flat `hid_dim` coordinate. -/
def finDivide {nH hD : ℕ} (c : Fin (nH * hD)) : Fin nH :=
  ⟨c.val / hD, Nat.div_lt_of_lt_mul (lt_of_lt_of_eq c.isLt (Nat.mul_comm nH hD))⟩

/-- In-head coordinate of a flat `hid_dim` coordinate. -/
def finMod {nH hD : ℕ} (c : Fin (nH * hD)) : Fin hD :=
  ⟨c.val % hD, Nat.mod_lt _ (by
    rcases Nat.eq_zero_or_pos hD with h0 | h0
    · exact absurd c.isLt (by simp [h0])
    · exact h0)⟩

/-- `view(bs, seq_len, n_heads, head_dim)` on a contiguous
`[bs, seq_len, hid_dim]` tensor (lines 99-101): row-major regrouping of the
last dimension. -/
def viewSplitHeads {bs s nH hD : ℕ} (t : Tensor3 bs s (nH * hD) ℚ) :
    Tensor4 bs s nH hD ℚ :=
  fun b i h d => t b i (finMerge h d)

/-- `permute(0, 2, 1, 3)`. -/
def permute0213 {a b c d : ℕ} {α : Type} (t : Tensor4 a b c d α) : Tensor4 a c b d α :=
  fun w x y z => t w y x z

/-- `permute(0, 2, 3, 1)`. -/
def permute0231 {a b c d : ℕ} {α : Type} (t : Tensor4 a b c d α) : Tensor4 a c d b α :=
  fun w x y z => t w z x y

/-- Batched `@` / `.matmul()` over the last two dimensions (lines 104, 118). -/
def matmul4 {a b m n p : ℕ} (t : Tensor4 a b m n ℚ) (u : Tensor4 a b n p ℚ) :
    Tensor4 a b m p ℚ :=
  fun w x i j => ∑ d, t w x i d * u w x d j

/-- Elementwise division of a tensor by a scalar (line 104). -/
def divScalar4 {a b c d : ℕ} (t : Tensor4 a b c d ℚ) (s : ℚ) : Tensor4 a b c d ℚ :=
  fun w x y z => t w x y z / s

/-- `mask.unsqueeze(1).repeat(1, n_heads, 1, 1)` (line 108). -/
def maskExpandHeads {bs s : ℕ} (nH : ℕ) (m : Tensor3 bs s s Bool) :
    Tensor4 bs nH s s Bool :=
  fun b _ i j => m b i j

/-- `energy.masked_fill(mask, val)` (line 109). -/
def maskedFill4 {a b c d : ℕ} (t : Tensor4 a b c d ℚ) (m : Tensor4 a b c d Bool)
    (val : ℚ) : Tensor4 a b c d ℚ :=
  fun w x y z => if m w x y z then val else t w x y z

/-- The `if mask is not None` block of `forward` (lines 106-109): when a mask
is given, expand it over the heads and fill masked energies with `-1e8`. -/
def applyAttnMask {bs nH s : ℕ} (energy : Tensor4 bs nH s s ℚ)
    (mask : Option (Tensor3 bs s s Bool)) : Tensor4 bs nH s s ℚ :=
  match mask with
  | none => energy
  | some m => maskedFill4 energy (maskExpandHeads nH m) (-100000000)

/-- Whether the optional mask blocks position `(b, i, j)` (false when no mask
is given). -/
def maskAt {bs s : ℕ} (mask : Option (Tensor3 bs s s Bool)) (b : Fin bs)
    (i j : Fin s) : Bool :=
  match mask with
  | none => false
  | some m => m b i j

/-- `torch.softmax` on a vector, with the real exponential abstracted as
`fexp`. -/
def softmaxFun {n : ℕ} (fexp : ℚ → ℚ) (v : Fin n → ℚ) : Fin n → ℚ :=
  fun i => fexp (v i) / ∑ j, fexp (v j)

/-- `torch.softmax(t, dim=-1)` (line 113). -/
def softmaxLast4 {a b c d : ℕ} (fexp : ℚ → ℚ) (t : Tensor4 a b c d ℚ) :
    Tensor4 a b c d ℚ :=
  fun w x y => softmaxFun fexp (t w x y)

/-- `x.permute(0, 2, 1, 3).contiguous().view(bs, -1, hid_dim)` final merge of
the head dimensions (lines 121-122): row-major flattening of `[nH, hD]`. -/
def viewMergeHeads {bs s nH hD : ℕ} (t : Tensor4 bs s nH hD ℚ) :
    Tensor3 bs s (nH * hD) ℚ :=
  fun b i c => t b i (finDivide c) (finMod c)

/-- `MultiHeadAttentionLayer` (lines 41-78): the four linear networks and the
(frozen) scale parameter, which `__init__` sets to `sqrt(head_dim)`.
`hid_dim = nH * hD` and `head_dim = hD`, reflecting the constructor's
divisibility assertion (claim C7). -/
structure MultiHeadAttentionLayer (nH hD : ℕ) where
  fc_q : LinearLayer (nH * hD) (nH * hD)
  fc_k : LinearLayer (nH * hD) (nH * hD)
  fc_v : LinearLayer (nH * hD) (nH * hD)
  fc_o : LinearLayer (nH * hD) (nH * hD)
  scale : ℚ

/-- `MultiHeadAttentionLayer.forward` (lines 80-127) with dropout 0, composed
exactly from the source's tensor operations. -/
def MultiHeadAttentionLayer.forward {nH hD bs s : ℕ} (fexp : ℚ → ℚ)
    (M : MultiHeadAttentionLayer nH hD) (query key value : Tensor3 bs s (nH * hD) ℚ)
    (mask : Option (Tensor3 bs s s Bool)) : Tensor3 bs s (nH * hD) ℚ :=
  let q := M.fc_q.map3 query
  let k := M.fc_k.map3 key
  let v := M.fc_v.map3 value
  let qh := permute0213 (viewSplitHeads q)
  let kh := permute0231 (viewSplitHeads k)
  let vh := permute0213 (viewSplitHeads v)
  let energy := divScalar4 (matmul4 qh kh) M.scale
  let energyMasked := applyAttnMask energy mask
  let attn := softmaxLast4 fexp energyMasked
  let attnDropped := fun w x y z => dropout0 (attn w x y z)
  let xh := matmul4 attnDropped vh
  M.fc_o.map3 (viewMergeHeads (permute0213 xh))

/-- The per-head attention formula stated by claim C4, written from the
claim's words (for comparison with `MultiHeadAttentionLayer.forward`):
per head `h`, `softmax((Q_h K_hᵀ) / sqrt(head_dim)) V_h` with masked energies
replaced by `-1e8` before the softmax, heads concatenated, then `fc_o`. -/
def mhaClaimFormula {nH hD bs s : ℕ} (fexp : ℚ → ℚ) (sqrtHeadDim : ℚ)
    (fq fk fv fo : LinearLayer (nH * hD) (nH * hD))
    (query key value : Tensor3 bs s (nH * hD) ℚ)
    (mask : Option (Tensor3 bs s s Bool)) : Tensor3 bs s (nH * hD) ℚ :=
  let q := fq.map3 query
  let k := fk.map3 key
  let v := fv.map3 value
  let headEnergy : Fin bs → Fin nH → Fin s → Fin s → ℚ := fun b h i j =>
    (∑ d, q b i (finMerge h d) * k b j (finMerge h d)) / sqrtHeadDim
  let headEnergyMasked : Fin bs → Fin nH → Fin s → Fin s → ℚ := fun b h i j =>
    if maskAt mask b i j then -100000000 else headEnergy b h i j
  let headOut : Fin bs → Fin nH → Fin s → Fin hD → ℚ := fun b h i d =>
    ∑ j, softmaxFun fexp (fun j2 => headEnergyMasked b h i j2) j * v b j (finMerge h d)
  let concatHeads : Tensor3 bs s (nH * hD) ℚ := fun b i c =>
    headOut b (finDivide c) i (finMod c)
  fo.map3 concatHeads

/-- C4: with dropout 0 and the scale parameter set to `sqrt(head_dim)` (as
`__init__` does, with `fsqrt` standing for the real square root),
`MultiHeadAttentionLayer.forward` computes, per head of dimension `head_dim`,
`softmax((Q_h K_hᵀ)/sqrt(head_dim)) V_h` with masked energies replaced by
`-1e8` before the softmax, concatenates the heads, and applies `fc_o`; the
output shape `[bs, s, nH*hD]` is that of the inputs (by the type). -/
theorem mha_forward_eq_claim_formula {nH hD bs s : ℕ} (fexp fsqrt : ℚ → ℚ)
    (M : MultiHeadAttentionLayer nH hD) (hscale : M.scale = fsqrt ((hD : ℕ) : ℚ))
    (query key value : Tensor3 bs s (nH * hD) ℚ)
    (mask : Option (Tensor3 bs s s Bool)) :
    M.forward fexp query key value mask
      = mhaClaimFormula fexp (fsqrt ((hD : ℕ) : ℚ)) M.fc_q M.fc_k M.fc_v M.fc_o
          query key value mask := by
  rw [← hscale]
  cases mask <;> rfl

/-- A concrete `MultiHeadAttentionLayer` with `n_heads = 1`, `head_dim = 1`
and scale 1, used by the witness below. -/
def mhaTiny : MultiHeadAttentionLayer 1 1 :=
  ⟨⟨fun _ _ => 1, fun _ => 0⟩, ⟨fun _ _ => 1, fun _ => 0⟩,
   ⟨fun _ _ => 1, fun _ => 0⟩, ⟨fun _ _ => 1, fun _ => 0⟩, 1⟩

/-- A concrete query tensor for the C4 witness. -/
def qTiny : Tensor3 1 1 (1 * 1) ℚ := fun _ _ _ => 2

/-- A concrete key tensor for the C4 witness. -/
def kTiny : Tensor3 1 1 (1 * 1) ℚ := fun _ _ _ => 3

/-- A concrete value tensor for the C4 witness. -/
def vTiny : Tensor3 1 1 (1 * 1) ℚ := fun _ _ _ => 5

/-- Witness for C4 at a concrete layer and input. -/
theorem mha_forward_eq_claim_formula_witness :
    mhaTiny.scale = (fun _ : ℚ => (1 : ℚ)) (((1 : ℕ) : ℚ))
    ∧ mhaTiny.forward (fun x => x) qTiny kTiny vTiny none
      = mhaClaimFormula (fun x => x) ((fun _ : ℚ => (1 : ℚ)) (((1 : ℕ) : ℚ)))
          mhaTiny.fc_q mhaTiny.fc_k mhaTiny.fc_v mhaTiny.fc_o qTiny kTiny vTiny none :=
  ⟨rfl, mha_forward_eq_claim_formula (fun x => x) (fun _ => 1) mhaTiny rfl
      qTiny kTiny vTiny none⟩

/-- `torch.relu`. -/
def reluQ (x : ℚ) : ℚ := max x 0

/-- `PositionwiseFeedforwardLayer` (lines 130-149): two linear layers. -/
structure PositionwiseFeedforwardLayer (hid pf : ℕ) where
  fc_1 : LinearLayer hid pf
  fc_2 : LinearLayer pf hid

/-- `PositionwiseFeedforwardLayer.forward` (lines 151-163) with dropout 0:
`x = dropout(relu(fc_1(x))); x = fc_2(x)`. -/
def PositionwiseFeedforwardLayer.forward {hid pf bs s : ℕ}
    (F : PositionwiseFeedforwardLayer hid pf) (x : Tensor3 bs s hid ℚ) :
    Tensor3 bs s hid ℚ :=
  let h := fun b p j => dropout0 (reluQ (F.fc_1.map3 x b p j))
  F.fc_2.map3 h

/-- The per-position map stated by claim C6: `fc_2(relu(fc_1(v)))` on a
single position's feature vector. -/
def pffClaimPointwise {hid pf : ℕ} (F : PositionwiseFeedforwardLayer hid pf)
    (v : Fin hid → ℚ) : Fin hid → ℚ :=
  F.fc_2.app (fun j => reluQ (F.fc_1.app v j))

/-- C6: with dropout 0, `PositionwiseFeedforwardLayer.forward(x)` equals
`fc_2(relu(fc_1(x)))` applied independently at each position `(b, p)`, and
the output shape `[bs, s, hid]` equals the input shape (by the type). -/
theorem pff_forward_pointwise {hid pf bs s : ℕ}
    (F : PositionwiseFeedforwardLayer hid pf) (x : Tensor3 bs s hid ℚ)
    (b : Fin bs) (p : Fin s) :
    F.forward x b p = pffClaimPointwise F (x b p) := rfl

/-- `nn.LayerNorm(hid)`: learnable per-feature weight (γ) and bias (β). -/
structure LayerNormParams (hid : ℕ) where
  weight : Fin hid → ℚ
  bias : Fin hid → ℚ

/-- `nn.LayerNorm` applied to the last dimension: normalise by the (biased)
mean and variance over the features, with `eps = 1e-5`, then scale and
shift.  `fsqrt` stands for the real square root. -/
def layerNormApp {hid : ℕ} (fsqrt : ℚ → ℚ) (P : LayerNormParams hid)
    (v : Fin hid → ℚ) : Fin hid → ℚ :=
  let mean := (∑ j, v j) / (hid : ℚ)
  let variance := (∑ j, (v j - mean) ^ 2) / (hid : ℚ)
  fun j => (v j - mean) / fsqrt (variance + 1 / 100000) * P.weight j + P.bias j

/-- `EncoderLayer` (lines 166-190): self-attention and position-wise blocks
with their layer norms. -/
structure EncoderLayer (nH hD pf : ℕ) where
  self_attn : MultiHeadAttentionLayer nH hD
  self_attn_ln : LayerNormParams (nH * hD)
  pf_layer : PositionwiseFeedforwardLayer (nH * hD) pf
  pf_ln : LayerNormParams (nH * hD)

/-- `EncoderLayer.forward` (lines 192-216) with dropout 0: residual
self-attention block with layer norm, then residual position-wise block with
layer norm. -/
def EncoderLayer.forward {nH hD pf bs s : ℕ} (fexp fsqrt : ℚ → ℚ)
    (L : EncoderLayer nH hD pf) (x : Tensor3 bs s (nH * hD) ℚ)
    (input_mask : Option (Tensor3 bs s s Bool)) : Tensor3 bs s (nH * hD) ℚ :=
  let attn_out := L.self_attn.forward fexp x x x input_mask
  let x1 := fun b p => layerNormApp fsqrt L.self_attn_ln
    (fun j => x b p j + dropout0 (attn_out b p j))
  let ff_out := L.pf_layer.forward x1
  fun b p => layerNormApp fsqrt L.pf_ln
    (fun j => x1 b p j + dropout0 (ff_out b p j))

/-- The attribute names assigned on a `TransformerEncoder` instance by
`__init__` (lines 244-266).  Note that line 246 assigns `pad_index`, not
`padding_index`. -/
def transformerEncoderAttrNames : List String :=
  ["pad_index", "tok_embedding", "pos_embedding", "dropout", "layers", "scale"]

/-- `TransformerEncoder.__init__` (lines 229-266): pad index flag, token and
positional embedding tables, encoder layers, and the scale parameter (set to
`sqrt(hid_dim)`). -/
structure TransformerEncoder (numTokens nH hD pf maxLen : ℕ) where
  pad_index : Option ℤ
  tok_embedding : Fin numTokens → Fin (nH * hD) → ℚ
  pos_embedding : Fin maxLen → Fin (nH * hD) → ℚ
  layers : List (EncoderLayer nH hD pf)
  scale : ℚ

/-- `TransformerEncoder.forward` (lines 273-304).  Lines 281-292 build the
scaled token embeddings plus positional embeddings (dropout 0).  Line 296
then reads `self.padding_index`: that name is never assigned in `__init__`
(line 246 assigns `self.pad_index`), so `nn.Module.__getattr__` raises
`AttributeError` on every call, before the mask and the layer loop.  The
guard below models the attribute lookup against the assigned names; its
then-branch is the masking and layer loop the code would run if the
attribute read succeeded and returned the configured pad index. -/
def TransformerEncoder.forward {numTokens nH hD pf maxLen bs n : ℕ}
    (fexp fsqrt : ℚ → ℚ) (E : TransformerEncoder numTokens nH hD pf maxLen)
    (x : Tensor2 bs n (Fin numTokens)) (hn : n ≤ maxLen) :
    Except String (Tensor3 bs n (nH * hD) ℚ) :=
  let emb : Tensor3 bs n (nH * hD) ℚ := fun b i j =>
    dropout0 (E.tok_embedding (x b i) j / E.scale
      + E.pos_embedding ⟨i.val, lt_of_lt_of_le i.isLt hn⟩ j)
  if "padding_index" ∈ transformerEncoderAttrNames then
    let xi : Tensor2 bs n ℤ := fun b i => ((x b i : ℕ) : ℤ)
    let mask : Option (Tensor3 bs n n Bool) :=
      match E.pad_index with
      | none => none
      | some p => some (get_pad_mask xi xi p)
    Except.ok (E.layers.foldl (fun acc L => L.forward fexp fsqrt acc mask) emb)
  else
    Except.error "AttributeError: TransformerEncoder object has no attribute padding_index"

/-- C1 (code bug): every call of `TransformerEncoder.forward`, on any
encoder and any valid token input, raises `AttributeError` at line 296
(`self.padding_index` was never assigned; `__init__` sets `self.pad_index`),
so it never returns the encoded tensor the claim (and the function's own
docstring) promises. -/
theorem transformer_encoder_forward_raises {numTokens nH hD pf maxLen bs n : ℕ}
    (fexp fsqrt : ℚ → ℚ) (E : TransformerEncoder numTokens nH hD pf maxLen)
    (x : Tensor2 bs n (Fin numTokens)) (hn : n ≤ maxLen) :
    E.forward fexp fsqrt x hn
      = Except.error
          "AttributeError: TransformerEncoder object has no attribute padding_index" := by
  unfold TransformerEncoder.forward
  rw [if_neg (by decide)]

/-- A concrete one-layer-free encoder for the C1 witness. -/
def encTiny : TransformerEncoder 1 1 1 1 1 :=
  ⟨none, fun _ _ => 0, fun _ _ => 0, [], 1⟩

/-- A concrete token input for the C1 witness. -/
def xTinyTok : Tensor2 1 1 (Fin 1) := fun _ _ => 0

/-- Witness for C1 at a concrete encoder and input. -/
theorem transformer_encoder_forward_raises_witness :
    (1 : ℕ) ≤ 1
    ∧ encTiny.forward (fun q => q) (fun q => q) xTinyTok (by decide)
      = Except.error
          "AttributeError: TransformerEncoder object has no attribute padding_index" :=
  ⟨by decide,
   transformer_encoder_forward_raises (fun q => q) (fun q => q) encTiny xTinyTok (by decide)⟩

/-- `DecoderLayer` (lines 307-339): masked self-attention, encoder
attention, and position-wise blocks, each with a layer norm. -/
structure DecoderLayer (nH hD pf : ℕ) where
  self_attn : MultiHeadAttentionLayer nH hD
  self_attn_ln : LayerNormParams (nH * hD)
  enc_attn : MultiHeadAttentionLayer nH hD
  enc_attn_ln : LayerNormParams (nH * hD)
  pf_layer : PositionwiseFeedforwardLayer (nH * hD) pf
  pf_ln : LayerNormParams (nH * hD)

/-- `DecoderLayer.forward` (lines 341-375) with dropout 0: residual masked
self-attention, residual encoder attention, then the residual position-wise
block, each followed by its layer norm. -/
def DecoderLayer.forward {nH hD pf bs s : ℕ} (fexp fsqrt : ℚ → ℚ)
    (L : DecoderLayer nH hD pf) (x enc_out : Tensor3 bs s (nH * hD) ℚ)
    (input_mask enc_mask : Tensor3 bs s s Bool) : Tensor3 bs s (nH * hD) ℚ :=
  let attn_out := L.self_attn.forward fexp x x x (some input_mask)
  let x1 := fun b p => layerNormApp fsqrt L.self_attn_ln
    (fun j => x b p j + dropout0 (attn_out b p j))
  let attn_out2 := L.enc_attn.forward fexp x1 enc_out enc_out (some enc_mask)
  let x2 := fun b p => layerNormApp fsqrt L.enc_attn_ln
    (fun j => x1 b p j + dropout0 (attn_out2 b p j))
  let ff_out := L.pf_layer.forward x2
  fun b p => layerNormApp fsqrt L.pf_ln
    (fun j => x2 b p j + dropout0 (ff_out b p j))

/-- The common padded sequence length of `TransformerDecoder.forward`
(lines 449-456): `dec_seq_len` is `seq_len(x)`, plus one when an image
embedding is passed, and `seq_len = max(dec_seq_len, enc_seq_len)`.  Both
the token input and the encoder output are padded to this length, and it is
the output's time dimension. -/
def decoderOutLen (n e : ℕ) (hasImg : Bool) : ℕ :=
  max (if hasImg then n + 1 else n) e

/-- `torch.cat([x, pad_index * torch.ones(bs, m - n)], dim=1)` (line 457):
right-pad each token sequence to length `m` with the pad token. -/
def padTokens {bs n : ℕ} {κ : Type} (x : Tensor2 bs n κ) (pad : κ) (m : ℕ) :
    Tensor2 bs m κ :=
  fun b i => if h : i.val < n then x b ⟨i.val, h⟩ else pad

/-- `torch.cat([enc_out, torch.zeros(bs, m - e, hid)], dim=1)` (line 458):
right-pad the encoder outputs with zero vectors to length `m`. -/
def padEncOut {bs e hid : ℕ} (t : Tensor3 bs e hid ℚ) (m : ℕ) :
    Tensor3 bs m hid ℚ :=
  fun b i j => if h : i.val < e then t b ⟨i.val, h⟩ j else 0

/-- `TransformerDecoder.__init__` (lines 391-431): optional pad index (kept
as a valid token index, since the padded tokens are looked up in the token
embedding), embedding tables, decoder layers, scale parameter (set to
`sqrt(hid_dim)`), and the output classifier. -/
structure TransformerDecoder (numTokens nH hD pf maxLen : ℕ) where
  pad_index : Option (Fin numTokens)
  tok_embedding : Fin numTokens → Fin (nH * hD) → ℚ
  pos_embedding : Fin maxLen → Fin (nH * hD) → ℚ
  layers : List (DecoderLayer nH hD pf)
  scale : ℚ
  classifier : LinearLayer (nH * hD) numTokens

/-- Lines 457-476 of `TransformerDecoder.forward` in the image-embedding
case, with pad token `p` and padded length `m`: the token sequence is padded
to length `m - 1`, embedded, the image embedding is prepended
(`torch.cat((image_emb.unsqueeze(1), tok_emb), 1)`), everything is scaled by
`1/scale`, positional embeddings for positions `0..m-1` are added, and
dropout (here 0) is applied.  This is the sequence fed to the first decoder
layer. -/
def TransformerDecoder.embImg {numTokens nH hD pf maxLen bs n : ℕ}
    (D : TransformerDecoder numTokens nH hD pf maxLen)
    (x : Tensor2 bs n (Fin numTokens)) (image_emb : Tensor2 bs (nH * hD) ℚ)
    (p : Fin numTokens) (m : ℕ) (hm : m ≤ maxLen) : Tensor3 bs m (nH * hD) ℚ :=
  fun b i j =>
    let tok : ℚ :=
      if h0 : i.val = 0 then image_emb b j
      else D.tok_embedding
        (padTokens x p (m - 1) b ⟨i.val - 1, by have := i.isLt; omega⟩) j
    dropout0 (tok / D.scale + D.pos_embedding ⟨i.val, lt_of_lt_of_le i.isLt hm⟩ j)

/-- Lines 457-476 of `TransformerDecoder.forward` without an image
embedding: the token sequence is padded to length `m`, embedded, scaled by
`1/scale`, and the positional embeddings are added (dropout 0). -/
def TransformerDecoder.embNoImg {numTokens nH hD pf maxLen bs n : ℕ}
    (D : TransformerDecoder numTokens nH hD pf maxLen)
    (x : Tensor2 bs n (Fin numTokens)) (p : Fin numTokens) (m : ℕ)
    (hm : m ≤ maxLen) : Tensor3 bs m (nH * hD) ℚ :=
  fun b i j =>
    dropout0 (D.tok_embedding (padTokens x p m b i) j / D.scale
      + D.pos_embedding ⟨i.val, lt_of_lt_of_le i.isLt hm⟩ j)

/-- The integer-valued token sequence used for the decoder masks in the
image case (lines 479-480): a column of ones (`torch.ones(bs, 1).long()`)
prepended to the padded token sequence. -/
def maskTokensImg {numTokens bs n : ℕ} (x : Tensor2 bs n (Fin numTokens))
    (p : Fin numTokens) (m : ℕ) : Tensor2 bs m ℤ :=
  fun b i =>
    if h0 : i.val = 0 then 1
    else ((padTokens x p (m - 1) b ⟨i.val - 1, by have := i.isLt; omega⟩ : Fin numTokens) : ℕ)

/-- The integer-valued token sequence used for the decoder masks without an
image embedding: just the padded token sequence. -/
def maskTokensNoImg {numTokens bs n : ℕ} (x : Tensor2 bs n (Fin numTokens))
    (p : Fin numTokens) (m : ℕ) : Tensor2 bs m ℤ :=
  fun b i => ((padTokens x p m b i : Fin numTokens) : ℕ)

/-- `(enc_out != 0.).all(dim=-1).long()` (line 486): 1 at the positions of
the (padded) encoder output whose feature vector has no zero entry, else 0. -/
def encInpMask {bs m hid : ℕ} (enc : Tensor3 bs m hid ℚ) : Tensor2 bs m ℤ :=
  fun b t => if (∀ j, enc b t j ≠ 0) then 1 else 0

/-- `TransformerDecoder.forward` (lines 438-496) with an image embedding.
Line 457 multiplies `self.pad_index` by a tensor, which raises `TypeError`
when the pad index is `None`; with an integer pad index the inputs are
padded to the common length `decoderOutLen n e true`, embedded with the
image embedding prepended (`embImg`), masked, passed through the decoder
layers, and classified. -/
def TransformerDecoder.forwardImg {numTokens nH hD pf maxLen bs n e : ℕ}
    (fexp fsqrt : ℚ → ℚ) (D : TransformerDecoder numTokens nH hD pf maxLen)
    (x : Tensor2 bs n (Fin numTokens)) (enc_out : Tensor3 bs e (nH * hD) ℚ)
    (image_emb : Tensor2 bs (nH * hD) ℚ)
    (hm : decoderOutLen n e true ≤ maxLen) :
    Except String (Tensor3 bs (decoderOutLen n e true) numTokens ℚ) :=
  match D.pad_index with
  | none => Except.error "TypeError: unsupported operand types for *: NoneType and Tensor"
  | some p =>
    let m := decoderOutLen n e true
    let encPadded := padEncOut enc_out m
    let emb := D.embImg x image_emb p m hm
    let xm := maskTokensImg x p m
    let input_mask : Tensor3 bs m m Bool := fun b i j =>
      get_pad_mask xm xm ((p : ℕ) : ℤ) b i j || get_autoregressive_mask xm b i j
    let enc_mask := get_pad_mask xm (encInpMask encPadded) ((p : ℕ) : ℤ)
    let out := D.layers.foldl
      (fun acc L => L.forward fexp fsqrt acc encPadded input_mask enc_mask) emb
    Except.ok (fun b i => D.classifier.app (out b i))

/-- `TransformerDecoder.forward` (lines 438-496) with `image_emb=None`:
same as `forwardImg` but with no prepended image slot and padded length
`decoderOutLen n e false`. -/
def TransformerDecoder.forwardNoImg {numTokens nH hD pf maxLen bs n e : ℕ}
    (fexp fsqrt : ℚ → ℚ) (D : TransformerDecoder numTokens nH hD pf maxLen)
    (x : Tensor2 bs n (Fin numTokens)) (enc_out : Tensor3 bs e (nH * hD) ℚ)
    (hm : decoderOutLen n e false ≤ maxLen) :
    Except String (Tensor3 bs (decoderOutLen n e false) numTokens ℚ) :=
  match D.pad_index with
  | none => Except.error "TypeError: unsupported operand types for *: NoneType and Tensor"
  | some p =>
    let m := decoderOutLen n e false
    let encPadded := padEncOut enc_out m
    let emb := D.embNoImg x p m hm
    let xm := maskTokensNoImg x p m
    let input_mask : Tensor3 bs m m Bool := fun b i j =>
      get_pad_mask xm xm ((p : ℕ) : ℤ) b i j || get_autoregressive_mask xm b i j
    let enc_mask := get_pad_mask xm (encInpMask encPadded) ((p : ℕ) : ℤ)
    let out := D.layers.foldl
      (fun acc L => L.forward fexp fsqrt acc encPadded input_mask enc_mask) emb
    Except.ok (fun b i => D.classifier.app (out b i))

/-- The padded length in the image case is positive (there is a position 0). -/
theorem decoderOutLen_img_pos (n e : ℕ) : 0 < decoderOutLen n e true :=
  Nat.lt_of_lt_of_le (Nat.succ_pos n) (le_max_left _ _)

/-- Token position `k < n` lands at slot `k + 1` of the padded image-case
sequence. -/
theorem decoderOutLen_img_succ_lt (n e k : ℕ) (hk : k < n) :
    k + 1 < decoderOutLen n e true := by
  have h1 : decoderOutLen n e true = max (n + 1) e := rfl
  rw [h1]
  omega

/-- C5 (amended): with an integer pad index, `TransformerDecoder.forward`
with an image embedding feeds the first decoder layer the sequence `embImg`
whose position 0 is the scaled image embedding plus the position-0
positional embedding and whose position `k+1` (for `k < n`) is the scaled
token embedding of `x[:, k]` plus the position-`k+1` positional embedding;
and when `enc_seq_len ≤ seq_len(x)` the output (of time dimension
`decoderOutLen n e true`, by the type of `forwardImg`) has exactly one more
time step than the output of the call with `image_emb=None` (time dimension
`decoderOutLen n e false`).  Without the restriction on `enc_seq_len` the
two time dimensions are `max(n+1, e)` and `max(n, e)`, which can coincide. -/
theorem decoder_forward_image_prepend {numTokens nH hD pf maxLen bs n e : ℕ}
    (fexp fsqrt : ℚ → ℚ) (D : TransformerDecoder numTokens nH hD pf maxLen)
    (p : Fin numTokens) (hp : D.pad_index = some p)
    (x : Tensor2 bs n (Fin numTokens)) (image_emb : Tensor2 bs (nH * hD) ℚ)
    (hm : decoderOutLen n e true ≤ maxLen) (he : e ≤ n) :
    (∀ (b : Fin bs) (j : Fin (nH * hD)) (i : Fin (decoderOutLen n e true)),
        i.val = 0 →
        D.embImg x image_emb p (decoderOutLen n e true) hm b i j
          = image_emb b j / D.scale
            + D.pos_embedding ⟨i.val, lt_of_lt_of_le i.isLt hm⟩ j)
    ∧ (∀ (b : Fin bs) (j : Fin (nH * hD)) (i : Fin (decoderOutLen n e true))
        (k : ℕ) (hk : k < n), i.val = k + 1 →
        D.embImg x image_emb p (decoderOutLen n e true) hm b i j
          = D.tok_embedding (x b ⟨k, hk⟩) j / D.scale
            + D.pos_embedding ⟨i.val, lt_of_lt_of_le i.isLt hm⟩ j)
    ∧ decoderOutLen n e true = decoderOutLen n e false + 1 := by
  refine ⟨?_, ?_, ?_⟩
  · intro b j i h0
    rcases i with ⟨iv, hiv⟩
    simp only [Fin.val] at h0
    subst h0
    rfl
  · intro b j i k hk h0
    rcases i with ⟨iv, hiv⟩
    simp only [Fin.val] at h0
    subst h0
    simp only [TransformerDecoder.embImg, dropout0]
    rw [dif_neg (Nat.succ_ne_zero k)]
    simp only [padTokens, Nat.add_sub_cancel]
    rw [dif_pos hk]
  · have h1 : decoderOutLen n e true = max (n + 1) e := rfl
    have h2 : decoderOutLen n e false = max n e := rfl
    rw [h1, h2]
    omega

/-- Counterexample to C5 as stated: for a length-2 token input and a
length-5 encoder output, the padded output time dimension is 5 both with and
without the image embedding (both calls pad to `max(dec_seq_len,
enc_seq_len)`), so the image call does not have one more time step. -/
theorem decoder_out_len_counterexample :
    decoderOutLen 2 5 true = 5 ∧ decoderOutLen 2 5 false = 5
    ∧ ¬ decoderOutLen 2 5 true = decoderOutLen 2 5 false + 1 := by decide

/-- A concrete decoder with an integer pad index for the C5 witness. -/
def decTinyP : TransformerDecoder 1 1 1 1 2 :=
  ⟨some 0, fun _ _ => 0, fun _ _ => 0, [], 1, ⟨fun _ _ => 1, fun _ => 0⟩⟩

/-- A concrete decoder token input for the C5 and C8 witnesses. -/
def decXTiny : Tensor2 1 1 (Fin 1) := fun _ _ => 0

/-- A concrete encoder output for the C5 and C8 witnesses. -/
def decEncTiny : Tensor3 1 1 (1 * 1) ℚ := fun _ _ _ => 1

/-- A concrete image embedding for the C5 and C8 witnesses. -/
def decImgTiny : Tensor2 1 (1 * 1) ℚ := fun _ _ => 1

/-- Padded image-case length bound for the tiny decoder. -/
theorem decTiny_len_img_le : decoderOutLen 1 1 true ≤ 2 := by decide

/-- Padded no-image length bound for the tiny decoder. -/
theorem decTiny_len_noimg_le : decoderOutLen 1 1 false ≤ 2 := by decide

/-- Witness for C5 at a concrete decoder and input. -/
theorem decoder_forward_image_prepend_witness :
    decTinyP.pad_index = some 0 ∧ (1 : ℕ) ≤ 1
    ∧ decoderOutLen 1 1 true = decoderOutLen 1 1 false + 1 :=
  ⟨rfl, by decide,
   (decoder_forward_image_prepend (fun q => q) (fun q => q) decTinyP 0 rfl
      decXTiny decImgTiny decTiny_len_img_le (by decide)).2.2⟩

/-- C8: on a `TransformerDecoder` whose pad index is `None` (the
constructor's default), every `forward` call — with or without an image
embedding — raises `TypeError` at line 457, where `self.pad_index` (None) is
multiplied by a tensor, before any output is produced. -/
theorem decoder_forward_none_pad_raises {numTokens nH hD pf maxLen bs n e : ℕ}
    (fexp fsqrt : ℚ → ℚ) (D : TransformerDecoder numTokens nH hD pf maxLen)
    (hnone : D.pad_index = none)
    (x : Tensor2 bs n (Fin numTokens)) (enc_out : Tensor3 bs e (nH * hD) ℚ)
    (image_emb : Tensor2 bs (nH * hD) ℚ)
    (hmI : decoderOutLen n e true ≤ maxLen)
    (hmN : decoderOutLen n e false ≤ maxLen) :
    D.forwardImg fexp fsqrt x enc_out image_emb hmI
      = Except.error "TypeError: unsupported operand types for *: NoneType and Tensor"
    ∧ D.forwardNoImg fexp fsqrt x enc_out hmN
      = Except.error "TypeError: unsupported operand types for *: NoneType and Tensor" := by
  refine ⟨?_, ?_⟩
  · unfold TransformerDecoder.forwardImg
    rw [hnone]
  · unfold TransformerDecoder.forwardNoImg
    rw [hnone]

/-- A concrete decoder with pad index `None` for the C8 witness. -/
def decTinyN : TransformerDecoder 1 1 1 1 2 :=
  ⟨none, fun _ _ => 0, fun _ _ => 0, [], 1, ⟨fun _ _ => 1, fun _ => 0⟩⟩

/-- Witness for C8 at a concrete decoder and input. -/
theorem decoder_forward_none_pad_raises_witness :
    decTinyN.pad_index = none
    ∧ (decTinyN.forwardImg (fun q => q) (fun q => q) decXTiny decEncTiny decImgTiny
          decTiny_len_img_le
        = Except.error "TypeError: unsupported operand types for *: NoneType and Tensor"
      ∧ decTinyN.forwardNoImg (fun q => q) (fun q => q) decXTiny decEncTiny
          decTiny_len_noimg_le
        = Except.error "TypeError: unsupported operand types for *: NoneType and Tensor") :=
  ⟨rfl, decoder_forward_none_pad_raises (fun q => q) (fun q => q) decTinyN rfl
      decXTiny decEncTiny decImgTiny decTiny_len_img_le decTiny_len_noimg_le⟩

/-- Whether an `Except` computation succeeded. -/
def exceptOk {ε α : Type} : Except ε α → Bool
  | Except.ok _ => true
  | Except.error _ => false

/-- The integer attributes `MultiHeadAttentionLayer.__init__` computes. -/
structure MHAConfig where
  hid_dim : ℕ
  n_heads : ℕ
  head_dim : ℕ
deriving DecidableEq

/-- `MultiHeadAttentionLayer.__init__` (lines 44-78) as a fallible
computation on its integer and dropout arguments.  Python evaluates
`hid_dim % n_heads` in the assert (line 57), which raises
`ZeroDivisionError` when `n_heads == 0`; otherwise the assert fails exactly
when the remainder is nonzero.  The `nn.Linear` constructions always
succeed; `nn.Dropout(dropout)` (line 72) raises `ValueError` when the
probability is outside `[0, 1]`. -/
def mhaInit (hid_dim n_heads : ℕ) (dropout : ℚ) : Except String MHAConfig :=
  if n_heads = 0 then
    Except.error "ZeroDivisionError: integer division or modulo by zero"
  else if hid_dim % n_heads ≠ 0 then
    Except.error "AssertionError: hid_dim must be divisible by n_heads"
  else if dropout < 0 ∨ dropout > 1 then
    Except.error "ValueError: dropout probability has to be between 0 and 1"
  else
    Except.ok ⟨hid_dim, n_heads, hid_dim / n_heads⟩

/-- Counterexample to C7 as stated: `hid_dim = 4` is divisible by
`n_heads = 2`, yet `MultiHeadAttentionLayer(4, 2, 2.0)` does not construct —
`nn.Dropout(2.0)` raises `ValueError` — so "succeeds iff divisible" fails.
(Also, with `n_heads = 0` and `hid_dim = 0`, `0 ∣ 0` holds but the assert
expression itself raises `ZeroDivisionError`.) -/
theorem mha_init_counterexample :
    (2 : ℕ) ∣ 4 ∧ exceptOk (mhaInit 4 2 2) = false
    ∧ ((0 : ℕ) ∣ 0 ∧ exceptOk (mhaInit 0 0 0) = false) := by decide

/-- C7 (amended): for `n_heads ≥ 1` and a dropout probability in `[0, 1]`,
constructing `MultiHeadAttentionLayer(hid_dim, n_heads, dropout)` succeeds
iff `hid_dim` is divisible by `n_heads` (otherwise the assert fails), and on
success `head_dim * n_heads == hid_dim` exactly, so the `view` of the
`[bs, seq_len, hid_dim]` projections into `n_heads` blocks of `head_dim` is
well defined. -/
theorem mha_init_succeeds_iff_divisible (hid_dim n_heads : ℕ) (dropout : ℚ)
    (hn : 1 ≤ n_heads) (hd0 : 0 ≤ dropout) (hd1 : dropout ≤ 1) :
    (exceptOk (mhaInit hid_dim n_heads dropout) = true ↔ hid_dim % n_heads = 0)
    ∧ (∀ cfg, mhaInit hid_dim n_heads dropout = Except.ok cfg →
        cfg.head_dim * n_heads = hid_dim ∧ cfg.n_heads = n_heads
        ∧ cfg.hid_dim = hid_dim) := by
  have hne : ¬ n_heads = 0 := by omega
  have hdr : ¬ (dropout < 0 ∨ dropout > 1) := by
    push_neg
    exact ⟨hd0, hd1⟩
  constructor
  · constructor
    · intro hok
      by_contra hmod
      simp only [mhaInit, if_neg hne, if_pos hmod, exceptOk] at hok
      exact Bool.false_ne_true hok
    · intro hmod
      simp only [mhaInit, if_neg hne, hmod, ne_eq, not_true_eq_false, if_false,
        if_neg hdr, exceptOk]
  · intro cfg hok
    by_cases hmod : hid_dim % n_heads = 0
    · simp only [mhaInit, if_neg hne, hmod, ne_eq, not_true_eq_false, if_false,
        if_neg hdr, Except.ok.injEq] at hok
      subst hok
      refine ⟨Nat.div_mul_cancel ?_, rfl, rfl⟩
      exact Nat.dvd_of_mod_eq_zero hmod
    · simp only [mhaInit, if_neg hne, if_pos hmod, exceptOk] at hok
      cases hok

/-- Witness for the amended C7 at `hid_dim = 6`, `n_heads = 3`,
`dropout = 0`. -/
theorem mha_init_succeeds_iff_divisible_witness :
    ((1 : ℕ) ≤ 3 ∧ (0 : ℚ) ≤ 0 ∧ (0 : ℚ) ≤ 1)
    ∧ ((exceptOk (mhaInit 6 3 0) = true ↔ 6 % 3 = 0)
      ∧ (∀ cfg, mhaInit 6 3 0 = Except.ok cfg →
          cfg.head_dim * 3 = 6 ∧ cfg.n_heads = 3 ∧ cfg.hid_dim = 6)) :=
  ⟨⟨by decide, by decide, by decide⟩,
   mha_init_succeeds_iff_divisible 6 3 0 (by decide) (by decide) (by decide)⟩

/-- Whether an optional attention mask's shape fails to match the energy
tensor's trailing shape `[bs, qs, qs]` (no mask: no check). -/
def maskShapeBad (bs qs : ℕ) : Option (ℕ × ℕ × ℕ) → Bool
  | none => false
  | some (mb, mi, mj) => !(mb == bs && mi == qs && mj == qs)

/-- Shape semantics of `MultiHeadAttentionLayer.forward` (lines 80-127) for
`query : [bs, qs, dq]`, `key : [bs, ks, dk]`, `value : [bs, vs, dv]` and an
optional mask shape, on a layer with `n_heads = nH`, `head_dim = hD` (so
`hid_dim = nH * hD`).  Returns the output shape, or the first shape error:
* line 95: each linear layer needs its input's last dimension = `hid_dim`;
* lines 99-101: each `view(bs, seq_len, n_heads, head_dim)` needs the
  element count to equal `bs * seq_len * hid_dim` with `seq_len` read from
  the QUERY (line 92) for all three tensors;
* lines 108-109: the given mask must match the energy's `[bs, qs, qs]`;
* line 122: `view(bs, -1, hid_dim)` infers the middle dimension: torch
  raises when the known product `bs * hid_dim` is 0 (a 0-element tensor
  makes the -1 ambiguous), else needs it to divide the element count. -/
def mhaForwardShape (nH hD bs qs dq ks dk vs dv : ℕ)
    (mshape : Option (ℕ × ℕ × ℕ)) : Except String (ℕ × ℕ × ℕ) :=
  if dq ≠ nH * hD then Except.error "RuntimeError: fc_q input shape mismatch"
  else if dk ≠ nH * hD then Except.error "RuntimeError: fc_k input shape mismatch"
  else if dv ≠ nH * hD then Except.error "RuntimeError: fc_v input shape mismatch"
  else if bs * qs * dq ≠ bs * qs * (nH * hD) then
    Except.error "RuntimeError: shape invalid for input size (q view)"
  else if bs * ks * dk ≠ bs * qs * (nH * hD) then
    Except.error "RuntimeError: shape invalid for input size (k view)"
  else if bs * vs * dv ≠ bs * qs * (nH * hD) then
    Except.error "RuntimeError: shape invalid for input size (v view)"
  else if maskShapeBad bs qs mshape then
    Except.error "RuntimeError: mask shape mismatch"
  else if bs * (nH * hD) = 0 then
    Except.error "RuntimeError: cannot reshape tensor of 0 elements, -1 is ambiguous"
  else if (bs * qs * (nH * hD)) % (bs * (nH * hD)) ≠ 0 then
    Except.error "RuntimeError: shape invalid for input size (output view)"
  else Except.ok (bs, qs, nH * hD)

/-- C9: for inputs whose last dimension is `hid_dim` (as documented), every
call of `MultiHeadAttentionLayer.forward` in which the key's sequence
length differs from the query's raises a shape error instead of performing
cross-attention: line 100 reshapes the projected key with the query's
`seq_len`, which fails whenever `bs * hid_dim > 0`; in the degenerate case
`bs * hid_dim = 0` the final `view(bs, -1, hid_dim)` (line 122) raises
instead. -/
theorem mha_forward_keylen_shape_error (nH hD bs qs ks vs : ℕ)
    (mshape : Option (ℕ × ℕ × ℕ)) (hne : ks ≠ qs) :
    exceptOk (mhaForwardShape nH hD bs qs (nH * hD) ks (nH * hD) vs (nH * hD) mshape)
      = false := by
  unfold mhaForwardShape
  rw [if_neg (fun h => h rfl), if_neg (fun h => h rfl), if_neg (fun h => h rfl),
    if_neg (fun h => h rfl)]
  by_cases hz : bs * (nH * hD) = 0
  · have h0 : ∀ t : ℕ, bs * t * (nH * hD) = 0 := by
      intro t
      rcases Nat.mul_eq_zero.mp hz with h | h <;> simp [h]
    rw [if_neg (show ¬ bs * ks * (nH * hD) ≠ bs * qs * (nH * hD) by
      rw [h0 ks, h0 qs]; exact fun h => h rfl)]
    rw [if_neg (show ¬ bs * vs * (nH * hD) ≠ bs * qs * (nH * hD) by
      rw [h0 vs, h0 qs]; exact fun h => h rfl)]
    cases hmb : maskShapeBad bs qs mshape with
    | true => rfl
    | false =>
      rw [if_pos hz]
      rfl
  · have hkk : bs * ks * (nH * hD) ≠ bs * qs * (nH * hD) := by
      intro heq
      have hb : 0 < bs := by
        rcases Nat.eq_zero_or_pos bs with h | h
        · exact absurd (by simp [h]) hz
        · exact h
      have hh : 0 < nH * hD := by
        rcases Nat.eq_zero_or_pos (nH * hD) with h | h
        · exact absurd (by simp [h]) hz
        · exact h
      exact hne (Nat.eq_of_mul_eq_mul_left hb (Nat.eq_of_mul_eq_mul_right hh heq))
    rw [if_pos hkk]
    rfl

/-- Witness for C9: a key of length 2 against a query of length 1. -/
theorem mha_forward_keylen_shape_error_witness :
    (2 : ℕ) ≠ 1
    ∧ exceptOk (mhaForwardShape 1 1 1 1 (1 * 1) 2 (1 * 1) 2 (1 * 1) none) = false :=
  ⟨by decide, mha_forward_keylen_shape_error 1 1 1 1 2 2 none (by decide)⟩

/-- The attribute names assigned on a `TransformerDecoder` instance by
`__init__` (lines 406-431). -/
def transformerDecoderAttrNames : List String :=
  ["pad_index", "tok_embedding", "pos_embedding", "dropout", "layers", "scale",
   "classifier"]

/-- Attribute lookup on a module: `nn.Module.__getattr__` raises
`AttributeError` for a name that was never assigned on the instance. -/
def moduleGetattr (attrs : List String) (name : String) : Except String Unit :=
  if name ∈ attrs then Except.ok () else Except.error ("AttributeError: " ++ name)

/-- `TransformerDecoder.inference_step` (lines 498-502), modelled at the
level of its attribute accesses: line 499 reads `self.embedding`, line 500
`self.lstm`, line 501 `self.linear`; none of these names is assigned by
`__init__` (lines 406-431), so the first lookup already raises and the
`Except.ok` tail (the method running to completion) is unreachable.  The
`inputs`/`hidden` arguments play no role in the lookups. -/
def TransformerDecoder.inference_step {numTokens nH hD pf maxLen : ℕ}
    (_D : TransformerDecoder numTokens nH hD pf maxLen) (_inputs _hidden : ℚ) :
    Except String Unit := do
  let _ ← moduleGetattr transformerDecoderAttrNames "embedding"
  let _ ← moduleGetattr transformerDecoderAttrNames "lstm"
  let _ ← moduleGetattr transformerDecoderAttrNames "linear"
  Except.ok ()

/-- C10: on every `TransformerDecoder` instance and all inputs,
`inference_step` raises `AttributeError` (at the `self.embedding` access):
none of `embedding`, `lstm`, `linear` is ever defined on the class, so the
method is unusable. -/
theorem inference_step_raises {numTokens nH hD pf maxLen : ℕ}
    (D : TransformerDecoder numTokens nH hD pf maxLen) (inputs hidden : ℚ) :
    D.inference_step inputs hidden = Except.error "AttributeError: embedding" := rfl
